import Mathlib

/-!
Shallow embedding of the Remote-Control-Server repository
(`remote_control.py`, `websocket_handler.py`).

Time values (Python `time.time()` floats) are modelled as rationals `ℚ`;
pixel coordinates as integers `ℤ`; Python dicts of decoded JSON command
messages as a record of optional fields (`MsgData`), with the `.get`
defaults applied at each use site exactly as in the source.  The external
`pyautogui` input-injection primitives are modelled as an effect list
(`Prim`); possible exceptions raised by a primitive are injected through
the environment (`Env.failMove`, `Env.failKeys`), and Python exception
propagation is modelled with `Except String Unit`.
-/

/-- One invocation of an external `pyautogui` input primitive (or an
`asyncio.sleep`, which `handle_multiple_keys` interleaves). -/
inductive Prim where
  | moveTo (x y : ℤ)
  | moveRel (dx dy : ℤ)
  | click (button : String) (clicks : ℤ) (interval : ℚ)
  | doubleClick
  | scroll (amount : ℤ)
  | keyDown (k : String)
  | keyUp (k : String)
  | press (k : String)
  | hotkey (ks : List String)
  | typewrite (s : String) (interval : ℚ)
  | sleep (d : ℚ)
deriving DecidableEq, Repr

/-- An outbound WebSocket frame sent by `WebSocketHandler.handle_command`
(the `welcome` frame is sent before the message loop and carries no
command-dependent data, so it is not modelled here). -/
inductive Frame where
  | pong (timestamp : Option ℤ)
  | error (command : String) (err : String)
deriving DecidableEq, Repr

/-- Environment of one handler invocation: the wall-clock readings, the
current cursor position reported by `pyautogui.position()`, and fault
injection for the external primitives (`failMove`: the mouse-move
primitive raises; `failKeys k`: a key primitive on key `k` raises). -/
structure Env where
  now : ℚ
  tdone : ℚ
  cur : ℤ × ℤ
  failMove : Bool
  failKeys : String → Bool

/-- The mutable state of `RemoteControl` (`remote_control.py`, `__init__`):
screen dimensions from `pyautogui.size()` plus the fail-safe fields. -/
structure RC where
  screen_width : ℤ
  screen_height : ℤ
  last_mouse_move_time : ℚ
  move_count : ℕ
  last_move_reset : ℚ
  is_locked : Bool
deriving DecidableEq, Repr

/-- `self.min_move_interval = 0.005` (200 Hz max). -/
def min_move_interval : ℚ := 1 / 200

/-- `self.max_move_distance = 100`. -/
def max_move_distance : ℤ := 100

/-- `self.max_moves_per_second = 200`. -/
def max_moves_per_second : ℕ := 200

/-- Distance / bounds part of `RemoteControl._validate_movement`
(lines 103-112 of `remote_control.py`). -/
def distance_bounds_check (rc : RC) (x y : ℤ) (relative : Bool) :
    Bool × String × RC :=
  if relative then
    if max_move_distance < |x| ∨ max_move_distance < |y| then
      (false, "Movement too large", rc)
    else (true, "", rc)
  else
    if ¬(0 ≤ x ∧ x < rc.screen_width ∧ 0 ≤ y ∧ y < rc.screen_height) then
      (false, "Position out of bounds", rc)
    else (true, "", rc)

/-- `RemoteControl._validate_movement` (lines 86-112): rate check against
the last successful move, then the 1-second frequency window (the counter
increment sticks even when a later check denies, as in the source, where
`self.move_count += 1` mutates the instance), then distance/bounds. -/
def validate_movement (rc : RC) (x y : ℤ) (relative : Bool) (now : ℚ) :
    Bool × String × RC :=
  if now - rc.last_mouse_move_time < min_move_interval then
    (false, "Rate limit exceeded", rc)
  else
    let rc1 := { rc with move_count := rc.move_count + 1 }
    if 1 ≤ now - rc1.last_move_reset then
      distance_bounds_check { rc1 with move_count := 0, last_move_reset := now } x y relative
    else if max_moves_per_second < rc1.move_count then
      (false, "Emergency lock: too many movements", { rc1 with is_locked := true })
    else
      distance_bounds_check rc1 x y relative

/-- `RemoteControl._emergency_unlock` (lines 114-120). -/
def emergency_unlock (rc : RC) (now : ℚ) : RC :=
  if rc.is_locked ∧ 2 < now - rc.last_move_reset then
    { rc with is_locked := false, move_count := 0, last_move_reset := now }
  else rc

/-- `RemoteControl.handle_mouse_move` (lines 122-160).  The whole body is
wrapped in `try/except` in the source, so the function is total: a raise
from the move primitive (`failMove = true`) lands in the `except` branch,
which sets `is_locked` and swallows the exception; `last_mouse_move_time`
is updated (to the post-execution clock reading `tdone`) only on the
successful path. -/
def handle_mouse_move (rc : RC) (x y : ℤ) (relative : Bool) (now : ℚ)
    (cur : ℤ × ℤ) (failMove : Bool) (tdone : ℚ) : RC × List Prim :=
  let rc1 := emergency_unlock rc now
  if rc1.is_locked then (rc1, [])
  else
    let v := validate_movement rc1 x y relative now
    if v.1 then
      let rc2 := v.2.2
      let call : Prim :=
        if relative then
          let target_x := max 0 (min (cur.1 + x) (rc2.screen_width - 1))
          let target_y := max 0 (min (cur.2 + y) (rc2.screen_height - 1))
          Prim.moveRel (target_x - cur.1) (target_y - cur.2)
        else
          Prim.moveTo (max 0 (min x (rc2.screen_width - 1)))
            (max 0 (min y (rc2.screen_height - 1)))
      if failMove then ({ rc2 with is_locked := true }, [call])
      else ({ rc2 with last_mouse_move_time := tdone }, [call])
    else (v.2.2, [])

/-- ASCII lower-casing of one character, modelling Python `str.lower()`
on the ASCII range (all key names in the protocol are ASCII). -/
def lowerChar (c : Char) : Char :=
  if 65 ≤ c.toNat ∧ c.toNat ≤ 90 then Char.ofNat (c.toNat + 32) else c

/-- `str.lower()` on a whole string (ASCII model). -/
def pyLower (s : String) : String := String.mk (s.data.map lowerChar)

/-- `SPECIAL_KEYS` (lines 17-67 of `remote_control.py`), in source order,
duplicates included: a Python dict literal lets a later binding overwrite
an earlier one (`'stop'` appears twice), which `pyDictGet` reproduces by
taking the last matching entry. -/
def SPECIAL_KEYS : List (String × String) :=
  [("backspace", "backspace"), ("delete", "delete"), ("enter", "enter"),
   ("tab", "tab"), ("escape", "esc"), ("esc", "esc"),
   ("up", "up"), ("down", "down"), ("left", "left"), ("right", "right"),
   ("f1", "f1"), ("f2", "f2"), ("f3", "f3"), ("f4", "f4"), ("f5", "f5"),
   ("f6", "f6"), ("f7", "f7"), ("f8", "f8"), ("f9", "f9"), ("f10", "f10"),
   ("f11", "f11"), ("f12", "f12"),
   ("ctrl", "ctrl"), ("control", "ctrl"), ("alt", "alt"), ("shift", "shift"),
   ("win", "win"), ("windows", "win"), ("cmd", "cmd"), ("command", "cmd"),
   ("space", "space"), ("home", "home"), ("end", "end"),
   ("pageup", "pageup"), ("pgup", "pageup"),
   ("pagedown", "pagedown"), ("pgdn", "pagedown"),
   ("insert", "insert"), ("ins", "insert"),
   ("volumeup", "volumeup"), ("volup", "volumeup"),
   ("volumedown", "volumedown"), ("voldown", "volumedown"),
   ("volumemute", "volumemute"), ("mute", "volumemute"),
   ("play", "space"), ("pause", "space"), ("stop", "stop"),
   ("next", "nexttrack"), ("previous", "prevtrack"),
   ("browserback", "browserback"), ("back", "browserback"),
   ("browserforward", "browserforward"), ("forward", "browserforward"),
   ("browserrefresh", "browserrefresh"), ("refresh", "browserrefresh"),
   ("browserstop", "browserstop"), ("stop", "browserstop"),
   ("browsersearch", "browsersearch"), ("search", "browsersearch"),
   ("browserfavorites", "browserfavorites"), ("favorites", "browserfavorites"),
   ("browserhome", "browserhome"), ("homepage", "browserhome")]

/-- Lookup in a Python dict-literal association list: the LAST binding of a
key wins, as in a Python `{...}` literal with duplicate keys. -/
def pyDictGet (l : List (String × String)) (k : String) : Option String :=
  match l with
  | [] => none
  | p :: rest =>
    match pyDictGet rest k with
    | some v => some v
    | none => if p.1 = k then some p.2 else none

/-- The key alias resolution performed by `handle_key_press`
(lines 196-202): lower-case, then replace through `SPECIAL_KEYS` when
present, otherwise pass the lowered string through unchanged. -/
def resolveKey (k : String) : String :=
  let k1 := pyLower k
  (pyDictGet SPECIAL_KEYS k1).getD k1

/-- Python's `'+' in key` membership test. -/
def pyContains (s : String) (c : Char) : Bool := s.data.contains c

/-- Python's `key.split('+')` for the single-character separator `'+'`
(splitting an empty string yields `[""]`, as in Python). -/
def splitPlus : List Char → List (List Char)
  | [] => [[]]
  | c :: rest =>
    match splitPlus rest with
    | [] => [[c]]
    | h :: t => if c = '+' then [] :: h :: t else (c :: h) :: t

/-- Whitespace characters removed by Python's `str.strip()` (the ones
that can occur in this protocol's key strings). -/
def pyIsSpace (c : Char) : Bool :=
  c = ' ' ∨ c.toNat = 9 ∨ c.toNat = 10 ∨ c.toNat = 13

/-- Python's `k.strip()`. -/
def pyStrip (s : String) : String :=
  String.mk (((s.data.dropWhile pyIsSpace).reverse.dropWhile pyIsSpace).reverse)

/-- One key primitive invocation that may raise (`pyautogui.keyDown` /
`keyUp` / `press` on key `k`); a raise is reported as `Except.error k`. -/
def invoke1 (env : Env) (p : Prim) (k : String) : List Prim × Except String Unit :=
  ([p], if env.failKeys k then Except.error k else Except.ok ())

/-- Sequential key primitives over a list (the `for k in mapped:` loops of
the hold / release branches); a raise aborts the remaining iterations. -/
def runKeys (env : Env) (mk : String → Prim) : List String → List Prim × Except String Unit
  | [] => ([], Except.ok ())
  | k :: rest =>
    if env.failKeys k then ([mk k], Except.error k)
    else
      let r := runKeys env mk rest
      (mk k :: r.1, r.2)

/-- `RemoteControl.handle_key_press` (lines 194-245).  There is no
`try/except` in the source method, so a raise from a primitive propagates
to the caller (modelled by the `Except.error` result). -/
def handle_key_press (env : Env) (key0 : String) (hold release : Bool) :
    List Prim × Except String Unit :=
  let key := pyLower key0
  if key = "" then ([], Except.ok ())
  else
    let key := (pyDictGet SPECIAL_KEYS key).getD key
    if pyContains key '+' then
      let keys := (splitPlus key.data).map (fun l => pyLower (pyStrip (String.mk l)))
      let mapped := keys.map (fun k => (pyDictGet SPECIAL_KEYS k).getD k)
      if hold then runKeys env Prim.keyDown mapped
      else if release then runKeys env Prim.keyUp mapped.reverse
      else
        ([Prim.hotkey mapped],
         if mapped.any env.failKeys then Except.error "hotkey" else Except.ok ())
    else
      if hold then invoke1 env (Prim.keyDown key) key
      else if release then invoke1 env (Prim.keyUp key) key
      else if key = "space" then ([Prim.typewrite " " 0], Except.ok ())
      else invoke1 env (Prim.press key) key

/-- One element of the `keys` array of a `multiple_keys` command: either a
bare string or an object with optional `key` / `hold` / `release` fields
(the two `isinstance` branches of `handle_multiple_keys`). -/
inductive KeyEntry where
  | str (s : String)
  | obj (key? : Option String) (hold? : Option Bool) (release? : Option Bool)
deriving DecidableEq, Repr

/-- Dispatch of one `multiple_keys` entry to `handle_key_press`
(lines 276-280): a string entry becomes a dict with only the `key` field,
so `hold` and `release` take their `.get` default `False`. -/
def key_press_of_entry (env : Env) : KeyEntry → List Prim × Except String Unit
  | KeyEntry.str s => handle_key_press env s false false
  | KeyEntry.obj k? h? r? =>
    handle_key_press env (k?.getD "") (h?.getD false) (r?.getD false)

/-- `RemoteControl.handle_multiple_keys` (lines 271-283): entries run
sequentially, with `asyncio.sleep(interval)` after each; the loop has no
`try/except`, so an exception raised by one entry propagates immediately
and the remaining entries are never attempted. -/
def handle_multiple_keys (env : Env) (keys : List KeyEntry) (interval : ℚ) :
    List Prim × Except String Unit :=
  match keys with
  | [] => ([], Except.ok ())
  | e :: rest =>
    let r := key_press_of_entry env e
    match r.2 with
    | Except.error msg => (r.1, Except.error msg)
    | Except.ok _ =>
      let r2 := handle_multiple_keys env rest interval
      (r.1 ++ Prim.sleep interval :: r2.1, r2.2)

/-- `RemoteControl.handle_mouse_click` (lines 162-177): an `if/elif` chain
with no `else`, so a button outside the four recognized values invokes
nothing and raises nothing. -/
def handle_mouse_click (button : String) (clicks : ℤ) (interval : ℚ) :
    List Prim × Except String Unit :=
  if button = "left" then ([Prim.click "left" clicks interval], Except.ok ())
  else if button = "right" then ([Prim.click "right" clicks interval], Except.ok ())
  else if button = "middle" then ([Prim.click "middle" clicks interval], Except.ok ())
  else if button = "double" then ([Prim.doubleClick], Except.ok ())
  else ([], Except.ok ())

/-- `RemoteControl.handle_mouse_scroll` (lines 179-192): clamp to
`[-500, 500]` and invoke; the body is wrapped in `try/except`, so the
method never raises. -/
def handle_mouse_scroll (amount : ℤ) : List Prim × Except String Unit :=
  ([Prim.scroll (max (-500) (min 500 amount))], Except.ok ())

/-- `RemoteControl.handle_key_type` (lines 247-256): empty text is a
no-op; `_process_text_for_typing` returns the text unchanged. -/
def handle_key_type (text : String) (interval : ℚ) :
    List Prim × Except String Unit :=
  if text = "" then ([], Except.ok ())
  else ([Prim.typewrite text interval], Except.ok ())

/-- A decoded JSON command object (`data : dict` in the source): every
field the handlers read through `data.get`, `none` meaning absent. -/
structure MsgData where
  type? : Option String := none
  x? : Option ℤ := none
  y? : Option ℤ := none
  relative? : Option Bool := none
  button? : Option String := none
  clicks? : Option ℤ := none
  interval? : Option ℚ := none
  amount? : Option ℤ := none
  key? : Option String := none
  hold? : Option Bool := none
  release? : Option Bool := none
  text? : Option String := none
  keys? : Option (List KeyEntry) := none
  timestamp? : Option ℤ := none

/-- The `except` clause of `WebSocketHandler.handle_command`
(lines 102-111): a raise from a handler becomes one `error` frame naming
the command type; no raise means no frame. -/
def wrapErr (t : String) : Except String Unit → List Frame
  | Except.ok _ => []
  | Except.error e => [Frame.error t e]

/-- `WebSocketHandler.handle_command` (lines 65-111): read the `type`
discriminant with default `"unknown"`, dispatch on the seven recognized
command types, answer `ping` with a `pong`, and merely log (sending
nothing) on an unrecognized type.  `handle_mouse_move` catches its own
exceptions, so its branch can never produce an `error` frame. -/
def handle_command (rc : RC) (env : Env) (d : MsgData) :
    RC × List Frame × List Prim :=
  let t := d.type?.getD "unknown"
  if t = "mouse_move" then
    let r := handle_mouse_move rc (d.x?.getD 0) (d.y?.getD 0)
      (d.relative?.getD false) env.now env.cur env.failMove env.tdone
    (r.1, [], r.2)
  else if t = "mouse_click" then
    let r := handle_mouse_click (d.button?.getD "left") (d.clicks?.getD 1)
      (d.interval?.getD 0)
    (rc, wrapErr t r.2, r.1)
  else if t = "mouse_scroll" then
    let r := handle_mouse_scroll (d.amount?.getD 0)
    (rc, wrapErr t r.2, r.1)
  else if t = "key_press" then
    let r := handle_key_press env (d.key?.getD "") (d.hold?.getD false)
      (d.release?.getD false)
    (rc, wrapErr t r.2, r.1)
  else if t = "key_type" then
    let r := handle_key_type (d.text?.getD "") (d.interval?.getD (1 / 100))
    (rc, wrapErr t r.2, r.1)
  else if t = "multiple_keys" then
    let r := handle_multiple_keys env (d.keys?.getD []) (d.interval?.getD (1 / 10))
    (rc, wrapErr t r.2, r.1)
  else if t = "ping" then
    (rc, [Frame.pong d.timestamp?], [])
  else
    (rc, [], [])

/-- One message delivered by the transport, after the `json.loads` of
`handle_client` (line 52): either it raised `JSONDecodeError`
(`malformed`) or it produced a command object. -/
inductive InMsg where
  | malformed
  | ok (d : MsgData)

/-- One iteration of the `async for message in websocket` loop of
`WebSocketHandler.handle_client` (lines 49-57): malformed JSON is caught,
logged and dropped — no frame, no primitive, no state change — and the
loop proceeds; a parsed message goes through `handle_command`. -/
def session_step (acc : RC × List Frame × List Prim) (m : InMsg × Env) :
    RC × List Frame × List Prim :=
  match m.1 with
  | InMsg.malformed => acc
  | InMsg.ok d =>
    let r := handle_command acc.1 m.2 d
    (r.1, acc.2.1 ++ r.2.1, acc.2.2 ++ r.2.2)

/-- The message loop of `handle_client` over a finite inbound sequence,
accumulating all outbound frames and primitive invocations. -/
def session_loop (rc : RC) (msgs : List (InMsg × Env)) :
    RC × List Frame × List Prim :=
  msgs.foldl session_step (rc, [], [])

/-- A `RemoteControl` instance fresh from `__init__` on a 1920×1080
screen, with the construction-time clock reading taken as time 0. -/
def rc0 : RC :=
  { screen_width := 1920, screen_height := 1080, last_mouse_move_time := 0,
    move_count := 0, last_move_reset := 0, is_locked := false }

/-- A benign environment: clock at 10 s, cursor at the origin, no
primitive failures. -/
def env0 : Env :=
  { now := 10, tdone := 10, cur := (0, 0), failMove := false,
    failKeys := fun _ => false }

/-- One absolute mouse-move request at a given submission time. -/
structure MoveReq where
  t : ℚ
  x : ℤ
  y : ℤ
  rel : Bool
deriving Repr

/-- Submit a sequence of mouse-move requests (each executing
instantaneously and successfully at its submission time). -/
def runMoves (rc : RC) (reqs : List MoveReq) (cur : ℤ × ℤ) : RC :=
  reqs.foldl (fun rc r => (handle_mouse_move rc r.x r.y r.rel r.t cur false r.t).1) rc

/-- `n` requests starting at time 10, spaced `step` seconds apart. -/
def mkTrace (n : ℕ) (step : ℚ) (x y : ℤ) (rel : Bool) : List MoveReq :=
  (List.range n).map fun k => { t := 10 + (k : ℚ) * step, x := x, y := y, rel := rel }

/-! ## Helper lemmas -/

lemma char_ofNat_toNat_small : ∀ n < 123, (Char.ofNat n).toNat = n := by decide

lemma lowerChar_idem (c : Char) : lowerChar (lowerChar c) = lowerChar c := by
  by_cases h : 65 ≤ c.toNat ∧ c.toNat ≤ 90
  · have h2 : (Char.ofNat (c.toNat + 32)).toNat = c.toNat + 32 :=
      char_ofNat_toNat_small _ (by omega)
    simp only [lowerChar, if_pos h]
    rw [if_neg (by rw [h2]; omega)]
  · simp only [lowerChar, if_neg h]

lemma pyLower_idem (s : String) : pyLower (pyLower s) = pyLower s := by
  show String.mk (List.map lowerChar (List.map lowerChar s.data)) = String.mk (List.map lowerChar s.data)
  congr 1
  induction s.data with
  | nil => rfl
  | cons a t ih => simp only [List.map_cons, lowerChar_idem, ih]

lemma pyDictGet_key_mem :
    ∀ (l : List (String × String)) (k v : String),
      pyDictGet l k = some v → ∃ p, p ∈ l ∧ p.1 = k := by
  intro l
  induction l with
  | nil => intro k v h; simp [pyDictGet] at h
  | cons p rest ih =>
    intro k v h
    simp only [pyDictGet] at h
    cases hr : pyDictGet rest k with
    | some w =>
      obtain ⟨q, hq, hq1⟩ := ih k w hr
      exact ⟨q, List.mem_cons_of_mem _ hq, hq1⟩
    | none =>
      rw [hr] at h
      by_cases hp : p.1 = k
      · exact ⟨p, List.mem_cons_self p rest, hp⟩
      · rw [if_neg hp] at h; cases h

/-- Every value a `SPECIAL_KEYS` lookup can return is itself a fixed point
of alias resolution (finite check over the table). -/
lemma special_keys_outputs_fixed_bool :
    (SPECIAL_KEYS.all fun p =>
      match pyDictGet SPECIAL_KEYS p.1 with
      | some v => resolveKey v == v
      | none => true) = true := by decide

lemma special_keys_outputs_fixed :
    ∀ p ∈ SPECIAL_KEYS, ∀ v, pyDictGet SPECIAL_KEYS p.1 = some v → resolveKey v = v := by
  intro p hp v hv
  have h := List.all_eq_true.mp special_keys_outputs_fixed_bool p hp
  rw [hv] at h
  exact eq_of_beq h

/-! ## Claim theorems: key aliases (C6) -/

/-- C6: key alias resolution (lower-casing followed by `SPECIAL_KEYS`
lookup, unknown strings passing through) is idempotent and
case-insensitive, and "ESC", "esc", "escape" all resolve to "esc". -/
theorem key_alias_resolution_idempotent :
    (∀ k, resolveKey (resolveKey k) = resolveKey k) ∧
    (∀ k, resolveKey (pyLower k) = resolveKey k) ∧
    (∀ k, pyDictGet SPECIAL_KEYS (pyLower k) = none → resolveKey k = pyLower k) ∧
    resolveKey "ESC" = "esc" ∧ resolveKey "esc" = "esc" ∧ resolveKey "escape" = "esc" := by
  have hcase : ∀ k, resolveKey (pyLower k) = resolveKey k := by
    intro k
    simp only [resolveKey, pyLower_idem]
  refine ⟨?_, hcase, ?_, by decide, by decide, by decide⟩
  · intro k
    cases h : pyDictGet SPECIAL_KEYS (pyLower k) with
    | none =>
      have hk : resolveKey k = pyLower k := by simp [resolveKey, h]
      rw [hk, hcase, hk]
    | some v =>
      have hk : resolveKey k = v := by simp [resolveKey, h]
      rw [hk]
      obtain ⟨p, hp, hp1⟩ := pyDictGet_key_mem _ _ _ h
      exact special_keys_outputs_fixed p hp v (by rw [hp1]; exact h)
  · intro k h
    simp [resolveKey, h]

/-- C6 witness: the pass-through clause applied at the concrete unknown
key "zzz". -/
theorem key_alias_resolution_idempotent_witness :
    resolveKey "zzz" = pyLower "zzz" :=
  key_alias_resolution_idempotent.2.2.1 "zzz" (by decide)

/-! ## Claim theorems: scroll clamping (C5) -/

/-- C5: the scroll primitive always receives the requested amount clamped
to `[-500, 500]`; out-of-range requests saturate at the bounds, in-range
ones (including 0, which is not an error) pass through unchanged. -/
theorem scroll_amount_clamped :
    ∀ amount : ℤ, ∃ v : ℤ,
      handle_mouse_scroll amount = ([Prim.scroll v], Except.ok ()) ∧
      -500 ≤ v ∧ v ≤ 500 ∧
      (-500 ≤ amount ∧ amount ≤ 500 → v = amount) ∧
      (500 < amount → v = 500) ∧
      (amount < -500 → v = -500) := by
  intro a
  refine ⟨max (-500) (min 500 a), rfl, ?_, ?_, ?_, ?_, ?_⟩ <;> intros <;> omega

/-- C5 witness: amount 10000 reaches the primitive as exactly 500,
-10000 as -500, and 0 as 0 with an `ok` outcome. -/
theorem scroll_amount_clamped_witness :
    handle_mouse_scroll 10000 = ([Prim.scroll 500], Except.ok ()) ∧
    handle_mouse_scroll (-10000) = ([Prim.scroll (-500)], Except.ok ()) ∧
    handle_mouse_scroll 0 = ([Prim.scroll 0], Except.ok ()) := by
  obtain ⟨v1, he1, _, _, _, hc1, _⟩ := scroll_amount_clamped 10000
  obtain ⟨v2, he2, _, _, _, _, hc2⟩ := scroll_amount_clamped (-10000)
  obtain ⟨v3, he3, _, _, hc3, _, _⟩ := scroll_amount_clamped 0
  rw [hc1 (by norm_num)] at he1
  rw [hc2 (by norm_num)] at he2
  rw [hc3 (by norm_num)] at he3
  exact ⟨he1, he2, he3⟩

/-! ## Claim theorems: unknown command type (C1) -/

/-- C1 counterexample: the command `{"type": "levitate"}` produces NO
outbound frame at all (second component `[]`), contradicting the claim
that an `error` frame with `command = "levitate"` is sent back; the
source's `else` branch only logs (line 100 of `websocket_handler.py`). -/
theorem unknown_command_sends_no_frame_cex :
    handle_command rc0 env0 { type? := some "levitate" } = (rc0, [], []) := by rfl

/-- C1 amended: a frame whose `type` is none of the seven recognized
command types invokes no input primitive, sends no frame (it is only
logged), leaves the control state unchanged, and does not close the
connection (the dispatch returns normally). -/
theorem unknown_command_silent :
    ∀ (t : String) (rc : RC) (env : Env) (d : MsgData),
      d.type? = some t →
      t ∉ ["mouse_move", "mouse_click", "mouse_scroll", "key_press",
           "key_type", "multiple_keys", "ping"] →
      handle_command rc env d = (rc, [], []) := by
  intro t rc env d ht hmem
  simp only [List.mem_cons, List.not_mem_nil, or_false, not_or] at hmem
  obtain ⟨h1, h2, h3, h4, h5, h6, h7⟩ := hmem
  simp [handle_command, ht, h1, h2, h3, h4, h5, h6, h7]

/-- C1 witness: the amended statement applied at the concrete unknown
type "levitate". -/
theorem unknown_command_silent_witness :
    handle_command rc0 env0 { type? := some "levitate" } = (rc0, [], []) :=
  unknown_command_silent "levitate" rc0 env0 _ rfl (by decide)

/-! ## Claim theorems: mouse click buttons (C10) -/

/-- C10: a `mouse_click` whose button is outside
left/right/middle/double invokes no primitive, raises nothing and sends
no frame (the `if/elif` chain simply falls through); an absent button
defaults to a left click with the requested clicks and interval. -/
theorem unknown_button_ignored :
    (∀ (b : String) (rc : RC) (env : Env) (d : MsgData),
       d.type? = some "mouse_click" → d.button? = some b →
       b ∉ ["left", "right", "middle", "double"] →
       handle_command rc env d = (rc, [], [])) ∧
    (∀ (rc : RC) (env : Env) (d : MsgData),
       d.type? = some "mouse_click" → d.button? = none →
       handle_command rc env d =
         (rc, [], [Prim.click "left" (d.clicks?.getD 1) (d.interval?.getD 0)])) := by
  constructor
  · intro b rc env d ht hb hmem
    simp only [List.mem_cons, List.not_mem_nil, or_false, not_or] at hmem
    obtain ⟨h1, h2, h3, h4⟩ := hmem
    simp [handle_command, handle_mouse_click, wrapErr, ht, hb, h1, h2, h3, h4]
  · intro rc env d ht hb
    simp [handle_command, handle_mouse_click, wrapErr, ht, hb]

/-- C10 witness: button "levitate" is silently ignored; a click with no
button field produces a left click with defaults clicks=1, interval=0. -/
theorem unknown_button_ignored_witness :
    handle_command rc0 env0 { type? := some "mouse_click", button? := some "levitate" }
      = (rc0, [], []) ∧
    handle_command rc0 env0 { type? := some "mouse_click" }
      = (rc0, [], [Prim.click "left" 1 0]) := by
  constructor
  · exact unknown_button_ignored.1 "levitate" rc0 env0 _ rfl rfl (by decide)
  · exact unknown_button_ignored.2 rc0 env0 _ rfl rfl

/-! ## Claim theorems: malformed JSON (C8) -/

/-- C8: a message on which `json.loads` raises is swallowed by the
`except JSONDecodeError` branch: it contributes no outbound frame, no
primitive invocation and no state change, and the loop's processing of
the surrounding messages is exactly as if the malformed message had
never arrived (so the session continues and does not crash). -/
theorem malformed_message_ignored :
    (∀ (acc : RC × List Frame × List Prim) (env : Env),
       session_step acc (InMsg.malformed, env) = acc) ∧
    (∀ (rc : RC) (pre post : List (InMsg × Env)) (env : Env),
       session_loop rc (pre ++ (InMsg.malformed, env) :: post) =
         session_loop rc (pre ++ post)) := by
  refine ⟨fun acc env => rfl, ?_⟩
  intro rc pre post env
  simp only [session_loop, List.foldl_append, List.foldl_cons]
  rfl

/-! ## Claim theorems: multiple_keys failure behavior (C7) -/

/-- An environment in which pressing the key "kaboom" raises. -/
def envFail : Env := { env0 with failKeys := fun k => k == "kaboom" }

/-- C7 counterexample: in `multiple_keys` with entries
["kaboom", "a"], the failure of the first entry aborts the loop — the
result is the propagated exception and the second entry's press is never
attempted, contradicting the claim that every later entry is still
attempted. -/
theorem multiple_keys_abort_cex :
    handle_multiple_keys envFail [KeyEntry.str "kaboom", KeyEntry.str "a"] (1 / 10)
      = ([Prim.press "kaboom"], Except.error "kaboom") ∧
    Prim.press "a" ∉
      (handle_multiple_keys envFail [KeyEntry.str "kaboom", KeyEntry.str "a"] (1 / 10)).1 := by
  constructor
  · rfl
  · decide

/-- C7 amended: entries run sequentially with an interval sleep after
each, but the loop body has no `try/except`, so an exception raised
while executing one entry propagates immediately: the remaining entries
contribute nothing (they are never attempted). -/
theorem multiple_keys_failure_aborts :
    ∀ (env : Env) (e : KeyEntry) (rest : List KeyEntry) (interval : ℚ) (msg : String),
      (key_press_of_entry env e).2 = Except.error msg →
      handle_multiple_keys env (e :: rest) interval =
        ((key_press_of_entry env e).1, Except.error msg) := by
  intro env e rest interval msg h
  simp only [handle_multiple_keys, h]

/-- C7 witness: the amended statement applied to the concrete failing
two-entry sequence. -/
theorem multiple_keys_failure_aborts_witness :
    handle_multiple_keys envFail [KeyEntry.str "kaboom", KeyEntry.str "a"] (1 / 10)
      = ([Prim.press "kaboom"], Except.error "kaboom") :=
  multiple_keys_failure_aborts envFail (KeyEntry.str "kaboom") [KeyEntry.str "a"] (1 / 10)
    "kaboom" (by rfl)

/-! ## Helper lemmas for the movement governor -/

@[simp] lemma emergency_unlock_screen_width (rc : RC) (now : ℚ) :
    (emergency_unlock rc now).screen_width = rc.screen_width := by
  unfold emergency_unlock; split <;> rfl

@[simp] lemma emergency_unlock_screen_height (rc : RC) (now : ℚ) :
    (emergency_unlock rc now).screen_height = rc.screen_height := by
  unfold emergency_unlock; split <;> rfl

@[simp] lemma emergency_unlock_last_move_time (rc : RC) (now : ℚ) :
    (emergency_unlock rc now).last_mouse_move_time = rc.last_mouse_move_time := by
  unfold emergency_unlock; split <;> rfl

@[simp] lemma distance_bounds_check_state (rc : RC) (x y : ℤ) (rel : Bool) :
    (distance_bounds_check rc x y rel).2.2 = rc := by
  unfold distance_bounds_check; split <;> split <;> rfl

@[simp] lemma validate_movement_screen_width (rc : RC) (x y : ℤ) (rel : Bool) (now : ℚ) :
    (validate_movement rc x y rel now).2.2.screen_width = rc.screen_width := by
  unfold validate_movement
  dsimp only
  split
  · rfl
  · split
    · rw [distance_bounds_check_state]
    · split
      · rfl
      · rw [distance_bounds_check_state]

@[simp] lemma validate_movement_screen_height (rc : RC) (x y : ℤ) (rel : Bool) (now : ℚ) :
    (validate_movement rc x y rel now).2.2.screen_height = rc.screen_height := by
  unfold validate_movement
  dsimp only
  split
  · rfl
  · split
    · rw [distance_bounds_check_state]
    · split
      · rfl
      · rw [distance_bounds_check_state]

@[simp] lemma validate_movement_last_move_time (rc : RC) (x y : ℤ) (rel : Bool) (now : ℚ) :
    (validate_movement rc x y rel now).2.2.last_mouse_move_time = rc.last_mouse_move_time := by
  unfold validate_movement
  dsimp only
  split
  · rfl
  · split
    · rw [distance_bounds_check_state]
    · split
      · rfl
      · rw [distance_bounds_check_state]

/-- The primitive invocation built on the allowed path of
`handle_mouse_move`: clamped absolute target, or clamped relative delta. -/
def moveCall (w h : ℤ) (x y : ℤ) (rel : Bool) (cur : ℤ × ℤ) : Prim :=
  if rel then
    Prim.moveRel (max 0 (min (cur.1 + x) (w - 1)) - cur.1)
      (max 0 (min (cur.2 + y) (h - 1)) - cur.2)
  else
    Prim.moveTo (max 0 (min x (w - 1))) (max 0 (min y (h - 1)))

lemma handle_mouse_move_locked (rc : RC) (x y : ℤ) (rel : Bool) (now : ℚ)
    (cur : ℤ × ℤ) (fail : Bool) (tdone : ℚ)
    (h : (emergency_unlock rc now).is_locked = true) :
    handle_mouse_move rc x y rel now cur fail tdone = (emergency_unlock rc now, []) := by
  unfold handle_mouse_move
  simp only [h, if_true]

lemma handle_mouse_move_invalid (rc : RC) (x y : ℤ) (rel : Bool) (now : ℚ)
    (cur : ℤ × ℤ) (fail : Bool) (tdone : ℚ)
    (h : (emergency_unlock rc now).is_locked = false)
    (hv : (validate_movement (emergency_unlock rc now) x y rel now).1 = false) :
    handle_mouse_move rc x y rel now cur fail tdone =
      ((validate_movement (emergency_unlock rc now) x y rel now).2.2, []) := by
  unfold handle_mouse_move
  simp only [h, hv, Bool.false_eq_true, if_false]

lemma handle_mouse_move_ok (rc : RC) (x y : ℤ) (rel : Bool) (now : ℚ)
    (cur : ℤ × ℤ) (tdone : ℚ)
    (h : (emergency_unlock rc now).is_locked = false)
    (hv : (validate_movement (emergency_unlock rc now) x y rel now).1 = true) :
    handle_mouse_move rc x y rel now cur false tdone =
      ({ (validate_movement (emergency_unlock rc now) x y rel now).2.2 with
          last_mouse_move_time := tdone },
       [moveCall rc.screen_width rc.screen_height x y rel cur]) := by
  unfold handle_mouse_move moveCall
  simp only [h, hv, Bool.false_eq_true, if_false, if_true,
    validate_movement_screen_width, validate_movement_screen_height,
    emergency_unlock_screen_width, emergency_unlock_screen_height]

lemma handle_mouse_move_exec_fail (rc : RC) (x y : ℤ) (rel : Bool) (now : ℚ)
    (cur : ℤ × ℤ) (tdone : ℚ)
    (h : (emergency_unlock rc now).is_locked = false)
    (hv : (validate_movement (emergency_unlock rc now) x y rel now).1 = true) :
    handle_mouse_move rc x y rel now cur true tdone =
      ({ (validate_movement (emergency_unlock rc now) x y rel now).2.2 with
          is_locked := true },
       [moveCall rc.screen_width rc.screen_height x y rel cur]) := by
  unfold handle_mouse_move moveCall
  simp only [h, hv, Bool.false_eq_true, if_false, if_true,
    validate_movement_screen_width, validate_movement_screen_height,
    emergency_unlock_screen_width, emergency_unlock_screen_height]

lemma validate_movement_rate_denied (rc : RC) (x y : ℤ) (rel : Bool) (now : ℚ)
    (h : now - rc.last_mouse_move_time < min_move_interval) :
    (validate_movement rc x y rel now).1 = false := by
  unfold validate_movement
  rw [if_pos h]

lemma validate_movement_abs_oob (rc : RC) (x y : ℤ) (now : ℚ)
    (h : ¬(0 ≤ x ∧ x < rc.screen_width ∧ 0 ≤ y ∧ y < rc.screen_height)) :
    (validate_movement rc x y false now).1 = false := by
  unfold validate_movement distance_bounds_check
  dsimp only
  split
  · rfl
  · split
    · simp [h]
    · split
      · rfl
      · simp [h]

/-! ## Claim theorems: movement rate limit (C3) -/

/-- C3: a movement request arriving strictly less than
`min_move_interval` after the rate reference time is denied (no
primitive) and leaves the reference unchanged; and the reference can
only change through a successful execution (`fail = false`, a primitive
invoked), in which case it becomes the post-execution clock reading. -/
theorem rate_limit_reference_discipline :
    ∀ (rc : RC) (x y : ℤ) (rel : Bool) (now : ℚ) (cur : ℤ × ℤ) (fail : Bool) (tdone : ℚ),
      (now - rc.last_mouse_move_time < min_move_interval →
        (handle_mouse_move rc x y rel now cur fail tdone).2 = [] ∧
        (handle_mouse_move rc x y rel now cur fail tdone).1.last_mouse_move_time
          = rc.last_mouse_move_time) ∧
      ((handle_mouse_move rc x y rel now cur fail tdone).1.last_mouse_move_time
          ≠ rc.last_mouse_move_time →
        fail = false ∧ (handle_mouse_move rc x y rel now cur fail tdone).2 ≠ [] ∧
        (handle_mouse_move rc x y rel now cur fail tdone).1.last_mouse_move_time = tdone) := by
  intro rc x y rel now cur fail tdone
  by_cases hl : (emergency_unlock rc now).is_locked = true
  · rw [handle_mouse_move_locked rc x y rel now cur fail tdone hl]
    exact ⟨fun _ => ⟨rfl, by simp⟩, fun hne => absurd (by simp) hne⟩
  · rw [Bool.not_eq_true] at hl
    by_cases hv : (validate_movement (emergency_unlock rc now) x y rel now).1 = true
    · constructor
      · intro hrate
        have hfalse : (validate_movement (emergency_unlock rc now) x y rel now).1 = false :=
          validate_movement_rate_denied _ x y rel now (by simpa using hrate)
        rw [hv] at hfalse; cases hfalse
      · intro hne
        cases fail with
        | false =>
          rw [handle_mouse_move_ok rc x y rel now cur tdone hl hv]
          exact ⟨rfl, by simp, rfl⟩
        | true =>
          rw [handle_mouse_move_exec_fail rc x y rel now cur tdone hl hv] at hne
          exact absurd (by simp) hne
    · rw [Bool.not_eq_true] at hv
      rw [handle_mouse_move_invalid rc x y rel now cur fail tdone hl hv]
      exact ⟨fun _ => ⟨rfl, by simp⟩, fun hne => absurd (by simp) hne⟩

/-- State whose rate reference sits at time 10 (one successful move just
executed). -/
def rcRate : RC := { rc0 with last_mouse_move_time := 10 }

/-- C3 witness: a request 1 ms after a successful move is denied and
leaves the reference untouched; a fresh successful move sets the
reference to its completion time. -/
theorem rate_limit_reference_discipline_witness :
    ((handle_mouse_move rcRate 5 5 false (10 + 1 / 1000) (0, 0) false (10 + 1 / 1000)).2 = [] ∧
     (handle_mouse_move rcRate 5 5 false (10 + 1 / 1000) (0, 0) false
        (10 + 1 / 1000)).1.last_mouse_move_time = rcRate.last_mouse_move_time) ∧
    ((handle_mouse_move rc0 5 5 false 10 (0, 0) false 10).2 ≠ [] ∧
     (handle_mouse_move rc0 5 5 false 10 (0, 0) false 10).1.last_mouse_move_time = 10) := by
  constructor
  · exact (rate_limit_reference_discipline rcRate 5 5 false (10 + 1 / 1000) (0, 0) false
      (10 + 1 / 1000)).1 (by norm_num [rcRate, rc0, min_move_interval])
  · have hne : (handle_mouse_move rc0 5 5 false 10 (0, 0) false 10).1.last_mouse_move_time
        ≠ rc0.last_mouse_move_time := by
      rw [handle_mouse_move_ok rc0 5 5 false 10 (0, 0) 10 rfl
        (by unfold validate_movement distance_bounds_check
            norm_num [rc0, min_move_interval, emergency_unlock])]
      norm_num [rc0]
    have h := (rate_limit_reference_discipline rc0 5 5 false 10 (0, 0) false 10).2 hne
    exact ⟨h.2.1, h.2.2⟩

/-! ## Claim theorems: movement bounds and clamping (C4) -/

/-- C4: an absolute move whose target lies outside
`[0, width) × [0, height)` invokes no primitive; an allowed relative
move invokes `moveRel` with exactly the clamped delta, and the resulting
absolute position (current plus delta) always lies inside the screen. -/
theorem movement_bounds_and_clamping :
    (∀ (rc : RC) (x y : ℤ) (now : ℚ) (cur : ℤ × ℤ) (fail : Bool) (tdone : ℚ),
       ¬(0 ≤ x ∧ x < rc.screen_width ∧ 0 ≤ y ∧ y < rc.screen_height) →
       (handle_mouse_move rc x y false now cur fail tdone).2 = []) ∧
    (∀ (rc : RC) (x y : ℤ) (now : ℚ) (cur : ℤ × ℤ) (tdone : ℚ),
       1 ≤ rc.screen_width → 1 ≤ rc.screen_height →
       (emergency_unlock rc now).is_locked = false →
       (validate_movement (emergency_unlock rc now) x y true now).1 = true →
       (handle_mouse_move rc x y true now cur false tdone).2 =
         [Prim.moveRel (max 0 (min (cur.1 + x) (rc.screen_width - 1)) - cur.1)
                       (max 0 (min (cur.2 + y) (rc.screen_height - 1)) - cur.2)] ∧
       0 ≤ cur.1 + (max 0 (min (cur.1 + x) (rc.screen_width - 1)) - cur.1) ∧
       cur.1 + (max 0 (min (cur.1 + x) (rc.screen_width - 1)) - cur.1) < rc.screen_width ∧
       0 ≤ cur.2 + (max 0 (min (cur.2 + y) (rc.screen_height - 1)) - cur.2) ∧
       cur.2 + (max 0 (min (cur.2 + y) (rc.screen_height - 1)) - cur.2) < rc.screen_height) := by
  constructor
  · intro rc x y now cur fail tdone h
    by_cases hl : (emergency_unlock rc now).is_locked = true
    · rw [handle_mouse_move_locked rc x y false now cur fail tdone hl]
    · rw [Bool.not_eq_true] at hl
      rw [handle_mouse_move_invalid rc x y false now cur fail tdone hl
        (validate_movement_abs_oob _ x y now (by simpa using h))]
  · intro rc x y now cur tdone hw hh hl hv
    rw [handle_mouse_move_ok rc x y true now cur tdone hl hv]
    refine ⟨by simp [moveCall], ?_, ?_, ?_, ?_⟩ <;> omega

/-- C4 witness: target (5000, 5) is rejected on a 1920×1080 screen with
no primitive; a relative move (+50, +50) from (1900, 500) is clamped to
the right edge and executed with the clamped delta, landing in bounds. -/
theorem movement_bounds_and_clamping_witness :
    (handle_mouse_move rc0 5000 5 false 10 (0, 0) false 10).2 = [] ∧
    ((handle_mouse_move rc0 50 50 true 10 (1900, 500) false 10).2 =
       [Prim.moveRel (max 0 (min (1900 + 50) (rc0.screen_width - 1)) - 1900)
                     (max 0 (min (500 + 50) (rc0.screen_height - 1)) - 500)] ∧
     0 ≤ 1900 + (max 0 (min (1900 + 50) (rc0.screen_width - 1)) - 1900) ∧
     1900 + (max 0 (min (1900 + 50) (rc0.screen_width - 1)) - 1900) < rc0.screen_width ∧
     0 ≤ 500 + (max 0 (min (500 + 50) (rc0.screen_height - 1)) - 500) ∧
     500 + (max 0 (min (500 + 50) (rc0.screen_height - 1)) - 500) < rc0.screen_height) := by
  constructor
  · exact movement_bounds_and_clamping.1 rc0 5000 5 10 (0, 0) false 10 (by norm_num [rc0])
  · exact movement_bounds_and_clamping.2 rc0 50 50 10 (1900, 500) 10
      (by norm_num [rc0]) (by norm_num [rc0]) rfl
      (by unfold validate_movement distance_bounds_check
          norm_num [rc0, min_move_interval, max_move_distance, emergency_unlock])

/-! ## Claim theorems: primitive failure locks the governor (C9) -/

/-- C9: when the move primitive raises during an allowed movement, the
`except` clause sets `is_locked` before the handler returns, the
attempted invocation is the only one, and the exception never escapes:
the `mouse_move` branch of `handle_command` can never emit an error
frame. -/
theorem primitive_failure_locks :
    ∀ (rc : RC) (x y : ℤ) (rel : Bool) (now : ℚ) (cur : ℤ × ℤ) (tdone : ℚ),
      (emergency_unlock rc now).is_locked = false →
      (validate_movement (emergency_unlock rc now) x y rel now).1 = true →
      (handle_mouse_move rc x y rel now cur true tdone).1.is_locked = true ∧
      (handle_mouse_move rc x y rel now cur true tdone).2 ≠ [] ∧
      (∀ (rc2 : RC) (env : Env) (d : MsgData), d.type? = some "mouse_move" →
        (handle_command rc2 env d).2.1 = []) := by
  intro rc x y rel now cur tdone hl hv
  rw [handle_mouse_move_exec_fail rc x y rel now cur tdone hl hv]
  refine ⟨rfl, by simp, ?_⟩
  intro rc2 env d ht
  simp [handle_command, ht]

/-- C9 witness: a failing primitive on an allowed concrete move locks the
governor, and the dispatch branch for `mouse_move` emits no frame. -/
theorem primitive_failure_locks_witness :
    (handle_mouse_move rc0 5 5 false 10 (0, 0) true 10).1.is_locked = true ∧
    (handle_mouse_move rc0 5 5 false 10 (0, 0) true 10).2 ≠ [] ∧
    (handle_command rc0 env0 { type? := some "mouse_move" }).2.1 = [] := by
  have h := primitive_failure_locks rc0 5 5 false 10 (0, 0) 10 rfl
    (by unfold validate_movement distance_bounds_check
        norm_num [rc0, min_move_interval, emergency_unlock])
  exact ⟨h.1, h.2.1, h.2.2 rc0 env0 _ rfl⟩

/-! ## Claim theorems: frequency governor lockout (C2) -/


lemma foldl_fixed {α β : Type} (f : β → α → β) (s : β) :
    ∀ l : List α, (∀ a ∈ l, f s a = s) → List.foldl f s l = s := by
  intro l
  induction l with
  | nil => intro _; rfl
  | cons a t ih =>
    intro h
    rw [List.foldl_cons, h a (List.mem_cons_self a t)]
    exact ih fun b hb => h b (List.mem_cons_of_mem a hb)

lemma runMoves_append (rc : RC) (l1 l2 : List MoveReq) (cur : ℤ × ℤ) :
    runMoves rc (l1 ++ l2) cur = runMoves (runMoves rc l1 cur) l2 cur :=
  List.foldl_append _ _ l1 l2

lemma emergency_unlock_not_locked (rc : RC) (now : ℚ) (h : rc.is_locked = false) :
    emergency_unlock rc now = rc := by
  unfold emergency_unlock
  rw [if_neg]
  rintro ⟨hc, -⟩
  rw [h] at hc
  cases hc

lemma validate_movement_rate_denied_full (rc : RC) (x y : ℤ) (rel : Bool) (now : ℚ)
    (h : now - rc.last_mouse_move_time < min_move_interval) :
    validate_movement rc x y rel now = (false, "Rate limit exceeded", rc) := by
  unfold validate_movement
  rw [if_pos h]

lemma step_rate_denied (rc : RC) (x y : ℤ) (rel : Bool) (now : ℚ) (cur : ℤ × ℤ)
    (fail : Bool) (tdone : ℚ) (h0 : rc.is_locked = false)
    (h : now - rc.last_mouse_move_time < min_move_interval) :
    handle_mouse_move rc x y rel now cur fail tdone = (rc, []) := by
  have hu : emergency_unlock rc now = rc := emergency_unlock_not_locked rc now h0
  rw [handle_mouse_move_invalid rc x y rel now cur fail tdone (by rw [hu]; exact h0)
    (by rw [hu, validate_movement_rate_denied_full rc x y rel now h]),
    hu, validate_movement_rate_denied_full rc x y rel now h]

/-- Governor state right after the first successful move of the flood:
rate reference at 10, window anchored at 10. -/
def stateAfterFirst : RC :=
  { rc0 with last_mouse_move_time := 10, move_count := 0, last_move_reset := 10 }

lemma flood_first_step (cur : ℤ × ℤ) :
    handle_mouse_move rc0 100 100 false 10 cur false 10 =
      (stateAfterFirst, [Prim.moveTo 100 100]) := by
  unfold handle_mouse_move emergency_unlock validate_movement distance_bounds_check
  norm_num [rc0, stateAfterFirst, min_move_interval, max_moves_per_second]

/-- 201 individually valid absolute move requests (target (100, 100) on
a 1920×1080 screen), all submitted within 2 ms of time 10 — far more
than 200 requests inside one 1-second window. -/
def validFlood : List MoveReq :=
  { t := 10, x := 100, y := 100, rel := false } ::
  (List.range 200).map fun (j : ℕ) =>
    { t := 10 + ((j : ℚ) + 1) / 100000, x := 100, y := 100, rel := false }

/-- C2 counterexample: submitting 201 individually valid (in-bounds)
mouse-move requests within one 1-second window does NOT lock the
governor: after the first move executes, all subsequent requests are
rejected by the per-event rate check BEFORE the frequency counter is
incremented, so `move_count` never exceeds 200 and `is_locked` stays
false.  More than 200 allowed moves in one window is in fact
unreachable: each executed move pushes the rate reference forward, so at
most 200 executions fit in a window. -/
theorem valid_flood_does_not_lock_cex :
    validFlood.length = 201 ∧
    (∀ r ∈ validFlood, 10 ≤ r.t ∧ r.t < 11 ∧ 0 ≤ r.x ∧ r.x < rc0.screen_width ∧
       0 ≤ r.y ∧ r.y < rc0.screen_height ∧ r.rel = false) ∧
    (runMoves rc0 validFlood (500, 500)).is_locked = false := by
  refine ⟨by simp [validFlood], ?_, ?_⟩
  · intro r hr
    simp only [validFlood, List.mem_cons, List.mem_map, List.mem_range] at hr
    rcases hr with h | ⟨j, hj, h⟩
    · subst h
      norm_num [rc0]
    · subst h
      have hjq : (j : ℚ) < 200 := by exact_mod_cast hj
      have hj0 : (0 : ℚ) ≤ (j : ℚ) := by positivity
      have hd0 : (0 : ℚ) ≤ ((j : ℚ) + 1) / 100000 :=
        div_nonneg (by linarith) (by norm_num)
      have hd1 : ((j : ℚ) + 1) / 100000 < 1 := by
        rw [div_lt_one (by norm_num)]
        linarith
      exact ⟨by simpa using by linarith, by simpa using by linarith,
        by norm_num, by norm_num [rc0], by norm_num, by norm_num [rc0], rfl⟩
  · have hfold : runMoves rc0 validFlood (500, 500) = stateAfterFirst := by
      have h1 : runMoves rc0 validFlood (500, 500) =
          List.foldl (fun rc r => (handle_mouse_move rc r.x r.y r.rel r.t (500, 500) false r.t).1)
            stateAfterFirst
            ((List.range 200).map fun (j : ℕ) =>
              ({ t := 10 + ((j : ℚ) + 1) / 100000, x := 100, y := 100, rel := false } : MoveReq)) := by
        simp only [runMoves, validFlood, List.foldl_cons, flood_first_step]
      rw [h1]
      apply foldl_fixed
      intro r hr
      simp only [List.mem_map, List.mem_range] at hr
      obtain ⟨j, hj, hr⟩ := hr
      subst hr
      have hjq : (j : ℚ) < 200 := by exact_mod_cast hj
      have h2 : ((j : ℚ) + 1) / 100000 < 1 / 200 := by
        rw [div_lt_div_iff₀ (by norm_num) (by norm_num)]
        linarith
      have hs := step_rate_denied stateAfterFirst 100 100 false
        (10 + ((j : ℚ) + 1) / 100000) (500, 500) false (10 + ((j : ℚ) + 1) / 100000) rfl
        (by show 10 + ((j : ℚ) + 1) / 100000 - stateAfterFirst.last_mouse_move_time < min_move_interval
            simp only [stateAfterFirst, min_move_interval]
            norm_num
            linarith)
      dsimp only
      rw [hs]
    rw [hfold]
    rfl

/-- Governor state during the out-of-bounds flood: counter at `c`, window
anchored at time 10, no successful move yet. -/
def stateOob (c : ℕ) : RC :=
  { rc0 with move_count := c, last_move_reset := 10 }

/-- `n` move requests with out-of-bounds target (-5, -5), spaced 0.1 ms
apart from time 10: they pass the rate check (no successful move ever
updates the reference) and are counted by the frequency governor, then
denied for bounds. -/
def oobFlood (n : ℕ) : List MoveReq :=
  (List.range n).map fun (j : ℕ) =>
    { t := 10 + (j : ℚ) / 10000, x := -5, y := -5, rel := false }

lemma oobFlood_succ (n : ℕ) :
    oobFlood (n + 1) = oobFlood n ++
      [{ t := 10 + (n : ℚ) / 10000, x := -5, y := -5, rel := false }] := by
  simp [oobFlood, List.range_succ]

lemma oob_step_first (cur : ℤ × ℤ) :
    handle_mouse_move rc0 (-5) (-5) false (10 + (0 : ℚ) / 10000) cur false
      (10 + (0 : ℚ) / 10000) = (stateOob 0, []) := by
  have ht : (10 + (0 : ℚ) / 10000) = 10 := by norm_num
  rw [ht]
  unfold handle_mouse_move emergency_unlock validate_movement distance_bounds_check
  norm_num [rc0, stateOob, min_move_interval, max_moves_per_second]

lemma oob_step (m : ℕ) (h1 : 1 ≤ m) (h2 : m ≤ 200) (cur : ℤ × ℤ) :
    handle_mouse_move (stateOob (m - 1)) (-5) (-5) false (10 + (m : ℚ) / 10000) cur false
      (10 + (m : ℚ) / 10000) = (stateOob m, []) := by
  have hmq : (m : ℚ) ≤ 200 := by exact_mod_cast h2
  have hm0 : (0 : ℚ) ≤ (m : ℚ) := by positivity
  have hd0 : (0 : ℚ) ≤ (m : ℚ) / 10000 := by positivity
  have hd1 : (m : ℚ) / 10000 < 1 := by
    rw [div_lt_one (by norm_num)]
    linarith
  have hmm : m - 1 + 1 = m := by omega
  have c1 : ¬(10 + (m : ℚ) / 10000 - 0 < min_move_interval) := by
    simp only [min_move_interval]
    intro h
    linarith
  have c2 : ¬((1 : ℚ) ≤ 10 + (m : ℚ) / 10000 - 10) := by
    intro h
    linarith
  have c3 : ¬(max_moves_per_second < m - 1 + 1) := by
    simp only [max_moves_per_second]
    omega
  have c4 : ¬((0 : ℤ) ≤ -5 ∧ (-5 : ℤ) < 1920 ∧ (0 : ℤ) ≤ -5 ∧ (-5 : ℤ) < 1080) := by
    decide
  unfold handle_mouse_move emergency_unlock validate_movement distance_bounds_check
  dsimp only [stateOob, rc0]
  simp only [Bool.false_eq_true, false_and, if_false]
  simp only [if_neg c1, if_neg c2, if_neg c3, if_pos c4]
  simp only [Bool.false_eq_true, if_false]
  simp [stateOob, rc0, hmm]

lemma oob_invariant :
    ∀ n, 1 ≤ n → n ≤ 201 → ∀ cur : ℤ × ℤ,
      runMoves rc0 (oobFlood n) cur = stateOob (n - 1) := by
  intro n
  induction n with
  | zero => intro h; omega
  | succ m ih =>
    intro h1 h2 cur
    by_cases hm : m = 0
    · subst hm
      simp only [oobFlood, List.range_succ, List.range_zero, List.nil_append,
        List.map_cons, List.map_nil, runMoves, List.foldl_cons, List.foldl_nil,
        Nat.cast_zero]
      rw [oob_step_first cur]
    · have hm1 : 1 ≤ m := by omega
      have hm200 : m ≤ 200 := by omega
      rw [oobFlood_succ, runMoves_append, ih hm1 (by omega) cur]
      simp only [runMoves, List.foldl_cons, List.foldl_nil]
      rw [oob_step m hm1 hm200 cur]
      rfl

lemma oob_step_lock (cur : ℤ × ℤ) :
    (handle_mouse_move (stateOob 200) (-5) (-5) false (10 + (201 : ℚ) / 10000) cur false
      (10 + (201 : ℚ) / 10000)).1.is_locked = true := by
  have c1 : ¬(10 + (201 : ℚ) / 10000 - 0 < min_move_interval) := by
    simp only [min_move_interval]
    intro h
    linarith
  have c2 : ¬((1 : ℚ) ≤ 10 + (201 : ℚ) / 10000 - 10) := by
    intro h
    linarith
  have c3 : max_moves_per_second < 200 + 1 := by
    simp [max_moves_per_second]
  unfold handle_mouse_move emergency_unlock validate_movement distance_bounds_check
  dsimp only [stateOob, rc0]
  simp only [Bool.false_eq_true, false_and, if_false]
  simp only [if_neg c1, if_neg c2, if_pos c3]
  simp

theorem oob_flood_locks :
    (runMoves rc0 (oobFlood 202) (500, 500)).is_locked = true := by
  have h202 : (202 : ℕ) = 201 + 1 := rfl
  rw [h202, oobFlood_succ, runMoves_append, oob_invariant 201 (by norm_num) (by norm_num)]
  rw [show (201 : ℕ) - 1 = 200 from rfl]
  simp only [runMoves, List.foldl_cons, List.foldl_nil]
  rw [show ((201 : ℕ) : ℚ) = (201 : ℚ) from by norm_num]
  exact oob_step_lock (500, 500)

/-- C2 amended: (1) the frequency lock is reachable — more than 200
requests that pass the rate check within one 1-second window (here 202
out-of-bounds requests, counted but denied) drive `move_count` past 200
and set `is_locked`; (2) while locked and within 2 seconds of the
window start every MouseMove is denied with no primitive and no state
change; (3) once more than 2 seconds have passed since the window
start, the lock auto-clears, the counters reset, and an otherwise-valid
absolute move executes normally. -/
theorem governor_lockout_behavior :
    (runMoves rc0 (oobFlood 202) (500, 500)).is_locked = true ∧
    (∀ (rc : RC) (x y : ℤ) (rel : Bool) (now : ℚ) (cur : ℤ × ℤ) (fail : Bool) (tdone : ℚ),
       rc.is_locked = true → now - rc.last_move_reset ≤ 2 →
       handle_mouse_move rc x y rel now cur fail tdone = (rc, [])) ∧
    (∀ (rc : RC) (x y : ℤ) (now : ℚ) (cur : ℤ × ℤ) (tdone : ℚ),
       rc.is_locked = true → 2 < now - rc.last_move_reset →
       min_move_interval ≤ now - rc.last_mouse_move_time →
       0 ≤ x → x < rc.screen_width → 0 ≤ y → y < rc.screen_height →
       handle_mouse_move rc x y false now cur false tdone =
         ({ rc with is_locked := false, move_count := 1, last_move_reset := now,
                    last_mouse_move_time := tdone }, [Prim.moveTo x y])) := by
  refine ⟨oob_flood_locks, ?_, ?_⟩
  · intro rc x y rel now cur fail tdone hl hle
    have hu : emergency_unlock rc now = rc := by
      unfold emergency_unlock
      rw [if_neg]
      rintro ⟨-, hgt⟩
      linarith
    rw [handle_mouse_move_locked rc x y rel now cur fail tdone (by rw [hu]; exact hl), hu]
  · intro rc x y now cur tdone hl hgt hrate hx0 hxw hy0 hyh
    have hu : emergency_unlock rc now =
        { rc with is_locked := false, move_count := 0, last_move_reset := now } := by
      unfold emergency_unlock
      rw [if_pos ⟨hl, hgt⟩]
    have hval : validate_movement
        { rc with is_locked := false, move_count := 0, last_move_reset := now } x y false now =
        (true, "", { rc with is_locked := false, move_count := 1, last_move_reset := now }) := by
      unfold validate_movement distance_bounds_check
      dsimp only
      rw [if_neg (by intro h; simp only [min_move_interval] at h hrate; linarith)]
      rw [if_neg (by intro h; linarith)]
      rw [if_neg (by simp [max_moves_per_second])]
      rw [if_neg (not_not_intro ⟨hx0, hxw, hy0, hyh⟩)]
      norm_num
    have hstep := handle_mouse_move_ok rc x y false now cur tdone
      (by rw [hu]) (by rw [hu, hval])
    rw [hstep, hu, hval]
    have hcall : moveCall rc.screen_width rc.screen_height x y false cur = Prim.moveTo x y := by
      unfold moveCall
      rw [if_neg (by simp)]
      rw [min_eq_left (by omega), min_eq_left (by omega),
        max_eq_right (by omega), max_eq_right (by omega)]
    rw [hcall]

/-- A locked governor whose window started at time 10. -/
def rcLocked : RC :=
  { screen_width := 1920, screen_height := 1080, last_mouse_move_time := 0,
    move_count := 5, last_move_reset := 10, is_locked := true }

/-- C2 witness: the locked state denies a valid move at time 11
(within cooldown) and allows it at time 13 (after cooldown), clearing
the lock and resetting the counters. -/
theorem governor_lockout_behavior_witness :
    handle_mouse_move rcLocked 5 5 false 11 (0, 0) false 11 = (rcLocked, []) ∧
    handle_mouse_move rcLocked 5 5 false 13 (0, 0) false 13 =
      ({ rcLocked with
          is_locked := false, move_count := 1, last_move_reset := 13,
          last_mouse_move_time := 13 },
       [Prim.moveTo 5 5]) := by
  constructor
  · exact governor_lockout_behavior.2.1 rcLocked 5 5 false 11 (0, 0) false 11 rfl
      (by norm_num [rcLocked])
  · exact governor_lockout_behavior.2.2 rcLocked 5 5 13 (0, 0) 13 rfl
      (by norm_num [rcLocked]) (by norm_num [rcLocked, min_move_interval])
      (by norm_num) (by norm_num [rcLocked]) (by norm_num) (by norm_num [rcLocked])
